import Mathlib

/-!
Verification of the authentication and role-authorization flow of a small
session-based Express web application (signup, login, role-gated routes,
admin promote/demote, user records in a document store, sessions in a
session store).

The repository holds one main application file, `app.js`, and several
near-duplicate variant application files.  Each handler relevant to the
claims is embedded as a pure Lean function over an explicit user store and
session state:

* `signup`, `login`, `isAuthenticated`, `isAdmin`, `adminDashboard`,
  `promote`, `demote` — from `app.js`;
* `signupV3`, `adminV3` — from the part_000 variant whose signup derives the
  role from the email suffix and whose `/admin` route redirects non-admins;
* `demoteV4` — from the part_000 variant whose demote handler carries the
  self-demotion guard.

Non-determinism of the runtime (bcrypt salt, store-assigned ids) is
parametrised explicitly.
-/

namespace WebApp

/-- Role stored on a user record (`user_type` in `app.js`; the variant files
store the same value under the key `role`). -/
inductive Role where
  | user
  | admin
deriving DecidableEq, Repr

/-- Modelled from the spec: the bcrypt library is an external dependency whose
implementation is not part of this repository; §4.1 contracts the hasher as a
salted one-way hash with `verify(plaintext, hash)` true iff the plaintext
would have produced that hash.  A hash value is modelled as the salt paired
with the data the digest is a function of. -/
structure BHash where
  salt : Nat
  body : String
deriving DecidableEq, Repr

/-- Modelled from the spec: `bcrypt.hash(plaintext, saltRounds)` — salted
hashing; the salt is drawn by the library, hence a parameter here. -/
def bcryptHash (plaintext : String) (salt : Nat) : BHash :=
  ⟨salt, plaintext⟩

/-- Modelled from the spec: `bcrypt.compare(plaintext, hash)` — true iff the
plaintext would have produced the stored hash (under that hash's salt). -/
def bcryptCompare (plaintext : String) (h : BHash) : Bool :=
  decide (bcryptHash plaintext h.salt = h)

/-- A user document in the `users` collection:
`{ _id, name, email, password: <bcrypt hash>, user_type }` in `app.js`
(the variants store the role under the key `role` instead of `user_type`). -/
structure User where
  id : Nat
  name : String
  email : String
  password : BHash
  user_type : Role
deriving DecidableEq, Repr

/-- The `users` collection, in insertion order. -/
abbrev UserDB := List User

/-- `userCollection.findOne({ email })` — first document with that email. -/
def findOneByEmail (db : UserDB) (email : String) : Option User :=
  db.find? (fun u => u.email == email)

/-- `userCollection.findOne({ _id })` — first document with that id. -/
def findOneById (db : UserDB) (id : Nat) : Option User :=
  db.find? (fun u => u.id == id)

/-- `userCollection.updateOne({ _id }, { $set: { user_type: r } })` — updates
the first matching document only, as `updateOne` does. -/
def updateRole (db : UserDB) (targetId : Nat) (r : Role) : UserDB :=
  match db with
  | [] => []
  | u :: rest =>
    if u.id == targetId then { u with user_type := r } :: rest
    else u :: updateRole rest targetId r

/-- The mutable per-request session (`req.session`).  Absent fields are
`none`/`false`; `app.js` uses `authenticated`, `username`, `email`, `user`,
while the variant files use `role` in place of `user`. -/
structure Session where
  authenticated : Bool := false
  username : Option String := none
  email : Option String := none
  role : Option Role := none
  user : Option User := none
deriving DecidableEq, Repr

/-- The outcome a handler sends: a rendered view (with HTTP status and the
`errorMessage` view datum when the view takes one), a redirect, or a plain
`res.send` body. -/
inductive Response where
  | render (status : Nat) (view : String) (errorMessage : Option String)
  | redirect (path : String)
  | send (status : Nat) (body : String)
deriving DecidableEq, Repr

/-- Split a character list at every occurrence of `c` (the pieces, in order;
an empty list yields one empty piece), mirroring JavaScript's `split`. -/
def splitOnChar (c : Char) : List Char → List (List Char)
  | [] => [[]]
  | x :: xs =>
    match splitOnChar c xs with
    | [] => if x = c then [[], []] else [[x]]
    | r :: rs => if x = c then [] :: r :: rs else (x :: r) :: rs

/-- Modelled from the spec: Joi's `string().email()` check (the Joi library is
an external dependency, not part of this repository).  An address is accepted
when exactly one at-sign separates a nonempty local part from a domain of at
least two nonempty dot-separated labels. -/
def validEmail (s : String) : Bool :=
  match splitOnChar '@' s.toList with
  | [lp, dom] =>
    !lp.isEmpty &&
    (let labels := splitOnChar '.' dom
     decide (labels.length ≥ 2) && labels.all (fun l => !l.isEmpty))
  | _ => false

/-- `Joi.string().max(50).required()` applied to the `name` field: an absent
field fails `required`, an empty string fails Joi's nonempty default, and a
string longer than 50 characters fails `max(50)`.  Returns the reported
message on failure. -/
def checkName (v : Option String) : Option String :=
  match v with
  | none => some "\"name\" is required"
  | some s =>
    if s.isEmpty then some "\"name\" is not allowed to be empty"
    else if s.length > 50 then
      some "\"name\" length must be less than or equal to 50 characters long"
    else none

/-- `Joi.string().email().required()` applied to the `email` field. -/
def checkEmail (v : Option String) : Option String :=
  match v with
  | none => some "\"email\" is required"
  | some s =>
    if s.isEmpty then some "\"email\" is not allowed to be empty"
    else if validEmail s then none
    else some "\"email\" must be a valid email"

/-- `Joi.string().min(6).required()` applied to the signup `password` field. -/
def checkPasswordSignup (v : Option String) : Option String :=
  match v with
  | none => some "\"password\" is required"
  | some s =>
    if s.isEmpty then some "\"password\" is not allowed to be empty"
    else if s.length < 6 then
      some "\"password\" length must be at least 6 characters long"
    else none

/-- `Joi.string().required()` applied to the login `password` field. -/
def checkPasswordLogin (v : Option String) : Option String :=
  match v with
  | none => some "\"password\" is required"
  | some s =>
    if s.isEmpty then some "\"password\" is not allowed to be empty"
    else none

/-- The signup request body; a form field left out of the request is `none`. -/
structure SignupReq where
  name : Option String
  email : Option String
  password : Option String
deriving DecidableEq, Repr

/-- The login request body. -/
structure LoginReq where
  email : Option String
  password : Option String
deriving DecidableEq, Repr

/-- `schema.validate({ name, email, password })` for the signup schema: Joi
stops at the first failing key in schema declaration order (default
`abortEarly`), so the reported message is the first failing field's, in the
order name, email, password. -/
def signupValidate (req : SignupReq) : Option String :=
  match checkName req.name with
  | some m => some m
  | none =>
    match checkEmail req.email with
    | some m => some m
    | none => checkPasswordSignup req.password

/-- `schema.validate({ email, password })` for the login schema, in the order
email, password. -/
def loginValidate (req : LoginReq) : Option String :=
  match checkEmail req.email with
  | some m => some m
  | none => checkPasswordLogin req.password

/-- Result of a handler that may touch both the user store and the session. -/
structure HandlerResult where
  response : Response
  db : UserDB
  session : Session
deriving DecidableEq, Repr

/-- `POST /signup` handler of `app.js`: validate, reject duplicate emails,
hash, insert `{ name, email, password: hash, user_type: 'user' }`, then set
`session.authenticated`, `session.username`, `session.email` and redirect to
`/members`.  `salt` is bcrypt's fresh salt and `newId` the store-assigned id. -/
def signup (db : UserDB) (sess : Session) (req : SignupReq)
    (salt : Nat) (newId : Nat) : HandlerResult :=
  match signupValidate req with
  | some msg => ⟨.render 200 "signup" (some msg), db, sess⟩
  | none =>
    let name := req.name.getD ""
    let email := req.email.getD ""
    let password := req.password.getD ""
    match findOneByEmail db email with
    | some _ =>
      ⟨.render 200 "signup" (some "User with that email already exists!"), db, sess⟩
    | none =>
      let hashedPassword := bcryptHash password salt
      ⟨.redirect "/members",
       db ++ [⟨newId, name, email, hashedPassword, Role.user⟩],
       { sess with authenticated := true, username := some name, email := some email }⟩

/-- `t.toList.isSuffixOf` rendering of JavaScript's `s.endsWith(t)`. -/
def strEndsWith (s t : String) : Bool :=
  t.toList.isSuffixOf s.toList

/-- `POST /signup` handler of the part_000 variant that hashes before the
duplicate check and derives the role from the email:
`role = email.endsWith('@admin.com') ? 'admin' : 'user'`; the session gets
`authenticated`, `username`, `role`, and the redirect is role-dependent. -/
def signupV3 (db : UserDB) (sess : Session) (req : SignupReq)
    (salt : Nat) (newId : Nat) : HandlerResult :=
  match signupValidate req with
  | some msg => ⟨.render 200 "signup" (some msg), db, sess⟩
  | none =>
    let name := req.name.getD ""
    let email := req.email.getD ""
    let password := req.password.getD ""
    let hashedPassword := bcryptHash password salt
    match findOneByEmail db email with
    | some _ =>
      ⟨.render 200 "signup" (some "User with that email already exists!"), db, sess⟩
    | none =>
      let role := if strEndsWith email "@admin.com" then Role.admin else Role.user
      ⟨.redirect (if role = Role.admin then "/admin" else "/user"),
       db ++ [⟨newId, name, email, hashedPassword, role⟩],
       { sess with authenticated := true, username := some name, role := some role }⟩

/-- `POST /login` handler of `app.js`: validate, look up by email (miss →
"User not found"), compare the password (mismatch → "Incorrect password");
on success set `authenticated`, `username`, `email`, and `user` to the whole
stored document, then redirect to `/members`.  Login never writes the user
store, so only the response and session are returned. -/
def login (db : UserDB) (sess : Session) (req : LoginReq) :
    Response × Session :=
  match loginValidate req with
  | some msg => (.render 200 "login" (some msg), sess)
  | none =>
    let email := req.email.getD ""
    let password := req.password.getD ""
    match findOneByEmail db email with
    | none => (.render 200 "login" (some "User not found"), sess)
    | some user =>
      if bcryptCompare password user.password then
        (.redirect "/members",
         { sess with authenticated := true, username := some user.name,
                     email := some user.email, user := some user })
      else
        (.render 200 "login" (some "Incorrect password"), sess)

/-- The 403 outcome of `app.js`'s `isAdmin`:
`res.status(403).render('403', { title: 'Forbidden' })`. -/
def forbidden : Response :=
  .render 403 "403" none

/-- `isAuthenticated` middleware of `app.js`:
`if (req.session && req.session.user) return next(); res.redirect('/login')`.
It passes (returns the session to the next handler) iff a session is present
and its `user` field is set; otherwise it redirects to `/login`. -/
def isAuthenticated (s : Option Session) : Except Response Session :=
  match s with
  | some sess =>
    if sess.user.isSome then .ok sess else .error (.redirect "/login")
  | none => .error (.redirect "/login")

/-- `isAdmin` middleware of `app.js`:
`if (req.session.user && req.session.user.user_type === 'admin') return next();`
otherwise the 403 view. -/
def isAdmin (sess : Session) : Except Response Session :=
  match sess.user with
  | some u => if u.user_type = Role.admin then .ok sess else .error forbidden
  | none => .error forbidden

/-- Whether a guard let the request through to the next handler. -/
def guardPasses : Except Response Session → Bool
  | .ok _ => true
  | .error _ => false

/-- `GET /admin` of `app.js`: `isAuthenticated`, then `isAdmin`, then render
the dashboard. -/
def adminDashboard (s : Option Session) : Response :=
  match isAuthenticated s with
  | .error r => r
  | .ok sess =>
    match isAdmin sess with
    | .error r => r
    | .ok _ => .render 200 "admin" none

/-- Result of an admin mutation route: a response plus the user store. -/
structure AdminResult where
  response : Response
  db : UserDB
deriving DecidableEq, Repr

/-- `GET /promote/:id` of `app.js`: behind `isAuthenticated` and `isAdmin`,
set the target's `user_type` to `'admin'` and redirect to `/admin`. -/
def promote (db : UserDB) (s : Option Session) (targetId : Nat) : AdminResult :=
  match isAuthenticated s with
  | .error r => ⟨r, db⟩
  | .ok sess =>
    match isAdmin sess with
    | .error r => ⟨r, db⟩
    | .ok _ => ⟨.redirect "/admin", updateRole db targetId Role.admin⟩

/-- `GET /demote/:id` of `app.js`: behind `isAuthenticated` and `isAdmin`,
set the target's `user_type` to `'user'` and redirect to `/admin`.  There is
no self-demotion guard in this handler. -/
def demote (db : UserDB) (s : Option Session) (targetId : Nat) : AdminResult :=
  match isAuthenticated s with
  | .error r => ⟨r, db⟩
  | .ok sess =>
    match isAdmin sess with
    | .error r => ⟨r, db⟩
    | .ok _ => ⟨.redirect "/admin", updateRole db targetId Role.user⟩

/-- `GET /admin` of the part_000 variant with the email-suffix signup:
`if (!req.session.authenticated || req.session.role !== 'admin') return
res.redirect('/'); res.render('admin', ...)` — non-admins are redirected to
the home page, not answered 403. -/
def adminV3 (sess : Session) : Response :=
  if sess.authenticated && decide (sess.role = some Role.admin) then
    .render 200 "admin" none
  else
    .redirect "/"

/-- `GET /demote/:id` of the part_000 variant carrying the self-demotion
guard: non-admin sessions get `res.status(403).send('Access denied')`; the
target is fetched by id, and when its email equals `req.session.email` the
handler redirects to `/admin` without updating; otherwise the target's role
is set to `'user'`.  A missing target makes `user.email` throw, surfacing as
a server error. -/
def demoteV4 (db : UserDB) (sess : Session) (targetId : Nat) : AdminResult :=
  if sess.authenticated && decide (sess.role = some Role.admin) then
    match findOneById db targetId with
    | none => ⟨.render 500 "500" none, db⟩
    | some target =>
      if some target.email = sess.email then
        ⟨.redirect "/admin", db⟩
      else
        ⟨.redirect "/admin", updateRole db targetId Role.user⟩
  else
    ⟨.send 403 "Access denied", db⟩

/-! ## Theorems about the claims -/

/-- Claim C1, counterexample: the part_000 variant signup derives the role
from the email.  The request `{name: "Eve", email: "eve@admin.com",
password: "secret1"}` passes validation and the duplicate check (the
response is the success redirect), yet the newly created user's role is
`admin`, refuting "no choice of email address yields a newly created user
whose role is admin". -/
theorem signupV3_email_suffix_admin_cex :
    (signupV3 [] {} ⟨some "Eve", some "eve@admin.com", some "secret1"⟩ 0 1).response =
      Response.redirect "/admin" ∧
    (signupV3 [] {} ⟨some "Eve", some "eve@admin.com", some "secret1"⟩ 0 1).db.map
      User.user_type = [Role.admin] := by
  decide

/-- Claim C1, amended: in `app.js`'s signup handler every record the handler
adds to the store has role `user` — any member of the resulting store was
already present or carries `user_type = user`, for every input. -/
theorem signup_role_always_user (db : UserDB) (sess : Session)
    (req : SignupReq) (salt newId : Nat) (u : User)
    (hu : u ∈ (signup db sess req salt newId).db) :
    u ∈ db ∨ u.user_type = Role.user := by
  unfold signup at hu
  cases hval : signupValidate req with
  | some m =>
    rw [hval] at hu
    exact Or.inl hu
  | none =>
    rw [hval] at hu
    simp only at hu
    cases hdup : findOneByEmail db (req.email.getD "") with
    | some w =>
      rw [hdup] at hu
      exact Or.inl hu
    | none =>
      rw [hdup] at hu
      simp only [List.mem_append, List.mem_singleton] at hu
      rcases hu with h | h
      · exact Or.inl h
      · subst h
        exact Or.inr rfl

/-- Claim C1, witness for the amended theorem at a concrete signup. -/
theorem signup_role_always_user_witness :
    (⟨1, "Ann", "ann@x.com", bcryptHash "secret1" 0, Role.user⟩ : User) ∈ ([] : UserDB) ∨
    (⟨1, "Ann", "ann@x.com", bcryptHash "secret1" 0, Role.user⟩ : User).user_type = Role.user :=
  signup_role_always_user [] {} ⟨some "Ann", some "ann@x.com", some "secret1"⟩ 0 1
    ⟨1, "Ann", "ann@x.com", bcryptHash "secret1" 0, Role.user⟩ (by decide)

/-- Claim C2, counterexample: `app.js`'s demote handler has no self-demotion
guard.  An admin session whose `user` snapshot is the stored record with id 1
demoting id 1 gets the dashboard redirect, but the stored role becomes
`user` — not a no-op, and the acting admin's stored role is no longer
`admin`. -/
theorem demote_self_demotion_cex :
    (demote [⟨1, "Ann", "ann@x.com", bcryptHash "secret1" 0, Role.admin⟩]
        (some { authenticated := true, username := some "Ann",
                email := some "ann@x.com",
                user := some ⟨1, "Ann", "ann@x.com", bcryptHash "secret1" 0, Role.admin⟩ })
        1).response = Response.redirect "/admin" ∧
    (findOneById
        (demote [⟨1, "Ann", "ann@x.com", bcryptHash "secret1" 0, Role.admin⟩]
          (some { authenticated := true, username := some "Ann",
                  email := some "ann@x.com",
                  user := some ⟨1, "Ann", "ann@x.com", bcryptHash "secret1" 0, Role.admin⟩ })
          1).db 1).map User.user_type = some Role.user := by
  decide

/-- Claim C2, amended: only the part_000 variant demote handler guards
self-demotion.  There, under an authenticated admin session, when the target
id resolves to a record whose email is the session's own email, the handler
redirects to `/admin` and leaves the store untouched; in particular when that
record's role is `admin` it stays `admin`. -/
theorem demoteV4_self_demotion_noop (db : UserDB) (sess : Session)
    (target : User) (tid : Nat)
    (hauth : sess.authenticated = true)
    (hrole : sess.role = some Role.admin)
    (hfind : findOneById db tid = some target)
    (hself : sess.email = some target.email) :
    demoteV4 db sess tid = ⟨Response.redirect "/admin", db⟩ ∧
    (target.user_type = Role.admin →
      (findOneById (demoteV4 db sess tid).db tid).map User.user_type =
        some Role.admin) := by
  have hmain : demoteV4 db sess tid = ⟨Response.redirect "/admin", db⟩ := by
    unfold demoteV4
    simp [hauth, hrole, hfind, hself.symm]
  refine ⟨hmain, fun htr => ?_⟩
  rw [hmain]
  simp [hfind, htr]

/-- Claim C2, witness for the amended theorem at a concrete self-demotion. -/
theorem demoteV4_self_demotion_noop_witness :
    demoteV4 [⟨1, "Ann", "ann@x.com", bcryptHash "secret1" 0, Role.admin⟩]
        { authenticated := true, username := some "Ann",
          email := some "ann@x.com", role := some Role.admin } 1 =
      ⟨Response.redirect "/admin",
       [⟨1, "Ann", "ann@x.com", bcryptHash "secret1" 0, Role.admin⟩]⟩ :=
  (demoteV4_self_demotion_noop
    [⟨1, "Ann", "ann@x.com", bcryptHash "secret1" 0, Role.admin⟩]
    { authenticated := true, username := some "Ann",
      email := some "ann@x.com", role := some Role.admin }
    ⟨1, "Ann", "ann@x.com", bcryptHash "secret1" 0, Role.admin⟩ 1
    (by decide) (by decide) (by decide) (by decide)).1

/-- Claim C3, counterexample: a present session with `authenticated = true`
but no `user` field fails `app.js`'s authentication check, refuting "passes
iff the session is present and its authenticated field is true" — the
middleware tests `req.session.user`, not `authenticated`. -/
theorem isAuthenticated_authenticated_flag_cex :
    (Session.mk true none none none none).authenticated = true ∧
    isAuthenticated (some (Session.mk true none none none none)) =
      Except.error (Response.redirect "/login") :=
  ⟨rfl, rfl⟩

/-- Claim C3, amended: the `isAuthenticated` check passes iff the current
session is present and its `user` field is set; every failure is a redirect
to the login view, never an error response. -/
theorem isAuthenticated_user_field_gate (s : Option Session) :
    (guardPasses (isAuthenticated s) = (s.bind Session.user).isSome) ∧
    (guardPasses (isAuthenticated s) = false →
      isAuthenticated s = Except.error (Response.redirect "/login")) := by
  cases s with
  | none => exact ⟨rfl, fun _ => rfl⟩
  | some sess =>
    cases hu : sess.user with
    | none =>
      refine ⟨?_, fun _ => ?_⟩ <;> simp [isAuthenticated, guardPasses, hu]
    | some u =>
      refine ⟨?_, fun hfail => ?_⟩
      · simp [isAuthenticated, guardPasses, hu]
      · simp [isAuthenticated, guardPasses, hu] at hfail

/-- Claim C3, witness: a missing session fails the check and is redirected
to the login view. -/
theorem isAuthenticated_user_field_gate_witness :
    isAuthenticated none = Except.error (Response.redirect "/login") :=
  (isAuthenticated_user_field_gate none).2 rfl

/-- Claim C4, counterexample: in the part_000 variant, an authenticated
session whose role snapshot is `user` requesting the admin-only `/admin`
route is answered with a redirect to the home page — not a 403 Forbidden
view — refuting "a hard deny, never a redirect". -/
theorem adminV3_nonadmin_redirect_cex :
    (Session.mk true (some "Bob") (some "bob@x.com") (some Role.user) none).authenticated
      = true ∧
    (Session.mk true (some "Bob") (some "bob@x.com") (some Role.user) none).role
      = some Role.user ∧
    adminV3 (Session.mk true (some "Bob") (some "bob@x.com") (some Role.user) none) =
      Response.redirect "/" := by
  decide

/-- Claim C4, amended: in `app.js`, every session that passes the
authentication check (its `user` snapshot is set) but whose snapshotted role
is not `admin` is answered on `/admin`, `/promote/:id` and `/demote/:id`
with the 403 Forbidden view, and the user store — in particular the promote
target's stored role — is unchanged. -/
theorem admin_routes_forbid_nonadmin (db : UserDB) (sess : Session)
    (u : User) (tid : Nat)
    (hu : sess.user = some u) (hrole : u.user_type ≠ Role.admin) :
    adminDashboard (some sess) = forbidden ∧
    promote db (some sess) tid = ⟨forbidden, db⟩ ∧
    demote db (some sess) tid = ⟨forbidden, db⟩ := by
  refine ⟨?_, ?_, ?_⟩ <;>
    simp [adminDashboard, promote, demote, isAuthenticated, isAdmin, hu, hrole]

/-- Claim C4, witness: a concrete authenticated `user`-role session is
denied with the 403 view on all three admin routes and the store keeps the
target's role. -/
theorem admin_routes_forbid_nonadmin_witness :
    adminDashboard (some (Session.mk true (some "Bob") (some "bob@x.com") none
        (some ⟨2, "Bob", "bob@x.com", bcryptHash "hunter7" 0, Role.user⟩))) =
      forbidden ∧
    promote [⟨2, "Bob", "bob@x.com", bcryptHash "hunter7" 0, Role.user⟩]
        (some (Session.mk true (some "Bob") (some "bob@x.com") none
          (some ⟨2, "Bob", "bob@x.com", bcryptHash "hunter7" 0, Role.user⟩))) 2 =
      ⟨forbidden, [⟨2, "Bob", "bob@x.com", bcryptHash "hunter7" 0, Role.user⟩]⟩ ∧
    demote [⟨2, "Bob", "bob@x.com", bcryptHash "hunter7" 0, Role.user⟩]
        (some (Session.mk true (some "Bob") (some "bob@x.com") none
          (some ⟨2, "Bob", "bob@x.com", bcryptHash "hunter7" 0, Role.user⟩))) 2 =
      ⟨forbidden, [⟨2, "Bob", "bob@x.com", bcryptHash "hunter7" 0, Role.user⟩]⟩ :=
  admin_routes_forbid_nonadmin
    [⟨2, "Bob", "bob@x.com", bcryptHash "hunter7" 0, Role.user⟩]
    (Session.mk true (some "Bob") (some "bob@x.com") none
      (some ⟨2, "Bob", "bob@x.com", bcryptHash "hunter7" 0, Role.user⟩))
    ⟨2, "Bob", "bob@x.com", bcryptHash "hunter7" 0, Role.user⟩ 2
    rfl (by decide)

/-- Claim C5: in both `app.js`'s signup and the part_000 variant (which
hashes before the duplicate check), a signup attempt that passes validation
but whose email matches an existing record re-renders the signup form with
"User with that email already exists!", leaves the user store unchanged (no
record inserted) and the session unchanged (no fields set). -/
theorem signup_duplicate_email_rejected (db : UserDB) (sess : Session)
    (req : SignupReq) (salt newId : Nat) (w : User)
    (hval : signupValidate req = none)
    (hdup : findOneByEmail db (req.email.getD "") = some w) :
    signup db sess req salt newId =
      ⟨Response.render 200 "signup" (some "User with that email already exists!"),
       db, sess⟩ ∧
    signupV3 db sess req salt newId =
      ⟨Response.render 200 "signup" (some "User with that email already exists!"),
       db, sess⟩ := by
  constructor
  · unfold signup
    simp [hval, hdup]
  · unfold signupV3
    simp [hval, hdup]

/-- Claim C5, witness: a second signup with Ann's email against a store that
already holds Ann. -/
theorem signup_duplicate_email_rejected_witness :
    signup [⟨1, "Ann", "ann@x.com", bcryptHash "secret1" 0, Role.user⟩] {}
        ⟨some "Ann2", some "ann@x.com", some "secret2"⟩ 3 2 =
      ⟨Response.render 200 "signup" (some "User with that email already exists!"),
       [⟨1, "Ann", "ann@x.com", bcryptHash "secret1" 0, Role.user⟩], {}⟩ ∧
    signupV3 [⟨1, "Ann", "ann@x.com", bcryptHash "secret1" 0, Role.user⟩] {}
        ⟨some "Ann2", some "ann@x.com", some "secret2"⟩ 3 2 =
      ⟨Response.render 200 "signup" (some "User with that email already exists!"),
       [⟨1, "Ann", "ann@x.com", bcryptHash "secret1" 0, Role.user⟩], {}⟩ :=
  signup_duplicate_email_rejected
    [⟨1, "Ann", "ann@x.com", bcryptHash "secret1" 0, Role.user⟩] {}
    ⟨some "Ann2", some "ann@x.com", some "secret2"⟩ 3 2
    ⟨1, "Ann", "ann@x.com", bcryptHash "secret1" 0, Role.user⟩
    (by decide) (by decide)

/-- Claim C6: a login attempt that passes validation, finds a user by email,
but whose password does not verify against the stored hash, re-renders the
login form with "Incorrect password" and returns the session unchanged — no
`authenticated`, `username`, `email` or `user` field is set. -/
theorem login_incorrect_password_rejected (db : UserDB) (sess : Session)
    (req : LoginReq) (u : User)
    (hval : loginValidate req = none)
    (hfind : findOneByEmail db (req.email.getD "") = some u)
    (hpw : bcryptCompare (req.password.getD "") u.password = false) :
    login db sess req =
      (Response.render 200 "login" (some "Incorrect password"), sess) := by
  unfold login
  simp [hval, hfind, hpw]

/-- Claim C6, witness: logging in as Ann with the wrong password. -/
theorem login_incorrect_password_rejected_witness :
    login [⟨1, "Ann", "ann@x.com", bcryptHash "secret1" 0, Role.user⟩] {}
        ⟨some "ann@x.com", some "wrong99"⟩ =
      (Response.render 200 "login" (some "Incorrect password"), {}) :=
  login_incorrect_password_rejected
    [⟨1, "Ann", "ann@x.com", bcryptHash "secret1" 0, Role.user⟩] {}
    ⟨some "ann@x.com", some "wrong99"⟩
    ⟨1, "Ann", "ann@x.com", bcryptHash "secret1" 0, Role.user⟩
    (by decide) (by decide) (by decide)

/-- Claim C7: validation reports exactly one message, the first failing
field's in schema declaration order — name, email, password for signup and
email, password for login — and an absent required field is a validation
failure, not a defaulted value. -/
theorem validation_first_failure_order (n e p : Option String) (m : String) :
    (checkName n = some m → signupValidate ⟨n, e, p⟩ = some m) ∧
    (checkName n = none → checkEmail e = some m → signupValidate ⟨n, e, p⟩ = some m) ∧
    (checkName n = none → checkEmail e = none →
      signupValidate ⟨n, e, p⟩ = checkPasswordSignup p) ∧
    (checkEmail e = some m → loginValidate ⟨e, p⟩ = some m) ∧
    (checkEmail e = none → loginValidate ⟨e, p⟩ = checkPasswordLogin p) ∧
    (signupValidate ⟨none, e, p⟩).isSome = true ∧
    (signupValidate ⟨n, none, p⟩).isSome = true ∧
    (signupValidate ⟨n, e, none⟩).isSome = true ∧
    (loginValidate ⟨none, p⟩).isSome = true ∧
    (loginValidate ⟨e, none⟩).isSome = true := by
  refine ⟨fun h1 => ?_, fun h1 h2 => ?_, fun h1 h2 => ?_,
          fun h1 => ?_, fun h1 => ?_, ?_, ?_, ?_, ?_, ?_⟩
  · simp [signupValidate, h1]
  · simp [signupValidate, h1, h2]
  · simp [signupValidate, h1, h2]
  · simp [loginValidate, h1]
  · simp [loginValidate, h1]
  · simp [signupValidate, checkName]
  · cases hn : checkName n <;> simp [signupValidate, hn, checkEmail]
  · cases hn : checkName n with
    | some m2 => simp [signupValidate, hn]
    | none =>
      cases he : checkEmail e <;> simp [signupValidate, hn, he, checkPasswordSignup]
  · simp [loginValidate, checkEmail]
  · cases he : checkEmail e <;> simp [loginValidate, he, checkPasswordLogin]

/-- Claim C7, witness: a signup payload with all three fields invalid (empty
name, malformed email, short password) reports exactly the name's message,
the first failing field in declaration order. -/
theorem validation_first_failure_order_witness :
    signupValidate ⟨some "", some "bad", some "x"⟩ =
      some "\"name\" is not allowed to be empty" :=
  (validation_first_failure_order (some "") (some "bad") (some "x")
    "\"name\" is not allowed to be empty").1 (by decide)

/-- The modelled verifier agrees with plaintext equality under the hash's
own salt: comparing `p` against the hash of `q` decides `p = q`. -/
theorem bcryptCompare_hash_eq (p q : String) (salt : Nat) :
    bcryptCompare p (bcryptHash q salt) = decide (p = q) := by
  rcases eq_or_ne p q with h | h
  · subst h
    simp [bcryptCompare, bcryptHash]
  · simp [bcryptCompare, bcryptHash, BHash.mk.injEq, h]

/-- Claim C8: the password hasher's round-trip law — verification succeeds
on the hash of the same plaintext under any salt, and fails on the hash of
any distinct plaintext. -/
theorem hasher_roundtrip (p q : String) (salt : Nat) :
    bcryptCompare p (bcryptHash p salt) = true ∧
    (p ≠ q → bcryptCompare p (bcryptHash q salt) = false) := by
  constructor
  · rw [bcryptCompare_hash_eq]
    simp
  · intro h
    rw [bcryptCompare_hash_eq]
    simp [h]

/-- Claim C8, witness: the round trip for two concrete distinct plaintexts. -/
theorem hasher_roundtrip_witness :
    bcryptCompare "secret1" (bcryptHash "secret1" 5) = true ∧
    bcryptCompare "secret2" (bcryptHash "secret1" 5) = false :=
  ⟨(hasher_roundtrip "secret1" "secret1" 5).1,
   (hasher_roundtrip "secret2" "secret1" 5).2 (by decide)⟩

/-- Claim C9: a successful login stores the entire found User document in
the session's `user` field — in particular the stored password hash is
copied into the session — and redirects to `/members`. -/
theorem login_session_stores_full_user (db : UserDB) (sess : Session)
    (req : LoginReq) (u : User)
    (hval : loginValidate req = none)
    (hfind : findOneByEmail db (req.email.getD "") = some u)
    (hpw : bcryptCompare (req.password.getD "") u.password = true) :
    (login db sess req).1 = Response.redirect "/members" ∧
    (login db sess req).2.user = some u ∧
    ((login db sess req).2.user.map User.password) = some u.password := by
  unfold login
  simp [hval, hfind, hpw]

/-- Claim C9, witness: Ann's successful login places her whole stored
record, hash included, in the session. -/
theorem login_session_stores_full_user_witness :
    (login [⟨1, "Ann", "ann@x.com", bcryptHash "secret1" 0, Role.user⟩] {}
        ⟨some "ann@x.com", some "secret1"⟩).1 = Response.redirect "/members" ∧
    (login [⟨1, "Ann", "ann@x.com", bcryptHash "secret1" 0, Role.user⟩] {}
        ⟨some "ann@x.com", some "secret1"⟩).2.user =
      some ⟨1, "Ann", "ann@x.com", bcryptHash "secret1" 0, Role.user⟩ ∧
    ((login [⟨1, "Ann", "ann@x.com", bcryptHash "secret1" 0, Role.user⟩] {}
        ⟨some "ann@x.com", some "secret1"⟩).2.user.map User.password) =
      some (bcryptHash "secret1" 0) :=
  login_session_stores_full_user
    [⟨1, "Ann", "ann@x.com", bcryptHash "secret1" 0, Role.user⟩] {}
    ⟨some "ann@x.com", some "secret1"⟩
    ⟨1, "Ann", "ann@x.com", bcryptHash "secret1" 0, Role.user⟩
    (by decide) (by decide) (by decide)

/-- Claim C10: a successful signup (validation passes, email fresh) sets
`authenticated = true` but never sets the session's `user` field, so from a
session that had no `user` the resulting session fails `isAuthenticated` and
every route behind it — `/admin`, `/promote/:id`, `/demote/:id` — answers
with a redirect to `/login` (and the store is untouched by those requests)
until the user logs in. -/
theorem signup_session_without_user (db : UserDB) (sess : Session)
    (req : SignupReq) (salt newId tid : Nat)
    (hval : signupValidate req = none)
    (hdup : findOneByEmail db (req.email.getD "") = none)
    (huser : sess.user = none) :
    (signup db sess req salt newId).session.authenticated = true ∧
    (signup db sess req salt newId).session.user = none ∧
    isAuthenticated (some (signup db sess req salt newId).session) =
      Except.error (Response.redirect "/login") ∧
    adminDashboard (some (signup db sess req salt newId).session) =
      Response.redirect "/login" ∧
    promote (signup db sess req salt newId).db
        (some (signup db sess req salt newId).session) tid =
      ⟨Response.redirect "/login", (signup db sess req salt newId).db⟩ ∧
    demote (signup db sess req salt newId).db
        (some (signup db sess req salt newId).session) tid =
      ⟨Response.redirect "/login", (signup db sess req salt newId).db⟩ := by
  have hsess : (signup db sess req salt newId).session.user = none := by
    unfold signup
    simp [hval, hdup, huser]
  have hauth : (signup db sess req salt newId).session.authenticated = true := by
    unfold signup
    simp [hval, hdup]
  have hgate : isAuthenticated (some (signup db sess req salt newId).session) =
      Except.error (Response.redirect "/login") := by
    unfold isAuthenticated
    simp [hsess]
  refine ⟨hauth, hsess, hgate, ?_, ?_, ?_⟩ <;>
    simp [adminDashboard, promote, demote, hgate]

/-- Claim C10, witness: after Ann's fresh signup the session is
authenticated yet `user`-less, and the admin routes bounce it to `/login`. -/
theorem signup_session_without_user_witness :
    (signup [] {} ⟨some "Ann", some "ann@x.com", some "secret1"⟩ 0 1).session.authenticated
      = true ∧
    (signup [] {} ⟨some "Ann", some "ann@x.com", some "secret1"⟩ 0 1).session.user
      = none ∧
    isAuthenticated
      (some (signup [] {} ⟨some "Ann", some "ann@x.com", some "secret1"⟩ 0 1).session) =
      Except.error (Response.redirect "/login") ∧
    adminDashboard
      (some (signup [] {} ⟨some "Ann", some "ann@x.com", some "secret1"⟩ 0 1).session) =
      Response.redirect "/login" ∧
    promote (signup [] {} ⟨some "Ann", some "ann@x.com", some "secret1"⟩ 0 1).db
        (some (signup [] {} ⟨some "Ann", some "ann@x.com", some "secret1"⟩ 0 1).session) 1 =
      ⟨Response.redirect "/login",
       (signup [] {} ⟨some "Ann", some "ann@x.com", some "secret1"⟩ 0 1).db⟩ ∧
    demote (signup [] {} ⟨some "Ann", some "ann@x.com", some "secret1"⟩ 0 1).db
        (some (signup [] {} ⟨some "Ann", some "ann@x.com", some "secret1"⟩ 0 1).session) 1 =
      ⟨Response.redirect "/login",
       (signup [] {} ⟨some "Ann", some "ann@x.com", some "secret1"⟩ 0 1).db⟩ :=
  signup_session_without_user [] {} ⟨some "Ann", some "ann@x.com", some "secret1"⟩ 0 1 1
    (by decide) (by decide) rfl

end WebApp
